import Mathlib

/- Shallow embedding of the Electronics-Inventory web application
   (app.py, db.py, models.py): a CRUD layer over a SQLite store with
   filtered listing, part creation, single-field inline edits, deletion
   and container-label generation. Python strings are modelled as lists
   of characters, SQLite rows as Lean structures, timestamps as natural
   numbers. -/

namespace Inventory

/-- Python-style string: a list of characters. -/
abbrev Str := List Char

/-- Build a `Str` from a Lean string literal. -/
def str (s : String) : Str := s.data

/-- Whitespace characters removed by Python `str.strip()` (ASCII range). -/
def isSpaceChar (c : Char) : Bool :=
  c == ' ' || c == '\t' || c == '\n' || c == '\r' ||
  c == Char.ofNat 11 || c == Char.ofNat 12

/-- Python `str.strip()`: drop whitespace from both ends. -/
def pyStrip (s : Str) : Str :=
  (((s.dropWhile isSpaceChar).reverse).dropWhile isSpaceChar).reverse

/-- ASCII lowercasing of one character; SQLite's LIKE applies this folding
    to both operands before comparing. -/
def toLowerAscii (c : Char) : Char :=
  if 65 ≤ c.toNat ∧ c.toNat ≤ 90 then Char.ofNat (c.toNat + 32) else c

/-- ASCII lowercasing of a string. -/
def lcStr (s : Str) : Str := s.map toLowerAscii

/-- Numeric value of an ASCII digit, if any. -/
def digitVal (c : Char) : Option Nat :=
  if 48 ≤ c.toNat ∧ c.toNat ≤ 57 then some (c.toNat - 48) else none

/-- Digit run accepted by Python `int()`: digits, with a single underscore
    allowed between two digits. -/
def parseDigitsAux (acc : Nat) : Str → Option Nat
  | [] => some acc
  | '_' :: c :: rest =>
    match digitVal c with
    | some d => parseDigitsAux (acc * 10 + d) rest
    | none => none
  | ['_'] => none
  | c :: rest =>
    match digitVal c with
    | some d => parseDigitsAux (acc * 10 + d) rest
    | none => none

/-- Digit part of Python `int()`: at least one digit, no leading underscore. -/
def parseDigits : Str → Option Nat
  | [] => none
  | c :: rest =>
    match digitVal c with
    | some d => parseDigitsAux d rest
    | none => none

/-- Python `int()` on an already-stripped string: optional sign, then digits. -/
def pyInt (s : Str) : Option Int :=
  match s with
  | '+' :: rest => (parseDigits rest).map (fun n => (n : Int))
  | '-' :: rest => (parseDigits rest).map (fun n => -(n : Int))
  | l => (parseDigits l).map (fun n => (n : Int))

/-- A row of the `parts` table, with the columns the handlers read and
    write (the column list of add_part's INSERT). `updated_at` is an
    abstract timestamp. db.init_db actually creates fewer columns; that
    discrepancy is recorded by `initDbPartsColumns` below. -/
structure Part where
  id : Nat
  category : Str
  subcategory : Str
  description : Str
  package : Str
  container_id : Str
  quantity : Int
  notes : Str
  datasheet_url : Str
  pinout_url : Str
  updated_at : Nat
deriving DecidableEq

/-- The persisted state: the parts table plus the three lookup tables,
    each lookup table a list of names (a container's name defaults to its
    code, so one string per container suffices). -/
structure DBState where
  parts : List Part
  containers : List Str
  categories : List Str
  subcategories : List Str
deriving DecidableEq

/-- Modelled from the spec: the DDL of the `containers`, `categories` and
    `subcategories` tables is missing from the source (db.init_db creates
    none of them), so the INSERT OR IGNORE of the ensure functions is
    given the spec's semantics for these tables, identified by their
    code resp. name: "insert-if-absent, silently no-op if present or if
    the value is empty". The rest follows db.ensure_container,
    db.ensure_category and db.ensure_subcategory: strip the value and
    return the table unchanged when the result is empty. -/
def ensureName (table : List Str) (name : Str) : List Str :=
  let n := pyStrip name
  if n = [] then table
  else if n ∈ table then table
  else table ++ [n]

/-- db.ensure_container as a state transformer. -/
def ensure_container (st : DBState) (code : Str) : DBState :=
  { st with containers := ensureName st.containers code }

/-- db.ensure_category as a state transformer. -/
def ensure_category (st : DBState) (name : Str) : DBState :=
  { st with categories := ensureName st.categories name }

/-- db.ensure_subcategory as a state transformer. -/
def ensure_subcategory (st : DBState) (name : Str) : DBState :=
  { st with subcategories := ensureName st.subcategories name }

/-- app.ALLOWED_EDIT_FIELDS. -/
def ALLOWED_EDIT_FIELDS : List Str :=
  [str "category", str "subcategory", str "description", str "package",
   str "container_id", str "quantity", str "notes",
   str "datasheet_url", str "pinout_url"]

/-- SQLite LIKE pattern matching over already-lowercased characters:
    a percent sign matches any run of characters, an underscore matches
    exactly one character, anything else matches itself. -/
def likeMatch : (p : Str) → (s : Str) → Bool
  | [], s => s.isEmpty
  | c :: p, s =>
    if c = '%' then s.tails.any (fun t => likeMatch p t)
    else
      match s with
      | [] => false
      | a :: t => if c = '_' then likeMatch p t else c == a && likeMatch p t

/-- `field LIKE pattern` as executed by SQLite: ASCII-case-insensitive. -/
def sqlLike (s pat : Str) : Bool := likeMatch (lcStr pat) (lcStr s)

/-- The WHERE clause assembled by app.fetch_parts, applied to one row:
    when the stripped query is non-empty, one of the four text columns
    must match the pattern percent-query-percent; when the stripped
    category (resp. container) filter is non-empty, the column must equal
    it exactly. -/
def rowMatches (q category container_id : Str) (p : Part) : Bool :=
  (pyStrip q == ([] : Str) ||
    (let pat := '%' :: (pyStrip q ++ ['%'])
     sqlLike p.description pat || sqlLike p.notes pat ||
     sqlLike p.subcategory pat || sqlLike p.package pat)) &&
  (pyStrip category == ([] : Str) || p.category == pyStrip category) &&
  (pyStrip container_id == ([] : Str) || p.container_id == pyStrip container_id)

/-- ORDER BY updated_at DESC, id DESC: row `a` sorts no later than row `b`. -/
def partBefore (a b : Part) : Prop :=
  b.updated_at < a.updated_at ∨ (a.updated_at = b.updated_at ∧ b.id ≤ a.id)

instance decPartBefore : DecidableRel partBefore := fun a b =>
  inferInstanceAs (Decidable
    (b.updated_at < a.updated_at ∨ (a.updated_at = b.updated_at ∧ b.id ≤ a.id)))

instance totalPartBefore : IsTotal Part partBefore :=
  ⟨fun a b => by unfold partBefore; omega⟩

instance transPartBefore : IsTrans Part partBefore :=
  ⟨fun a b c hab hbc => by unfold partBefore at hab hbc ⊢; omega⟩

/-- The ORDER BY of fetch_parts, as a sort of the filtered rows. -/
def sortParts (l : List Part) : List Part := List.insertionSort partBefore l

/-- The LIMIT used by fetch_parts when its callers pass no limit. -/
def DEFAULT_LIMIT : Nat := 500

/-- app.fetch_parts: SELECT the rows satisfying the WHERE clause,
    ORDER BY updated_at DESC, id DESC, LIMIT `limit`. -/
def fetch_parts (parts : List Part) (q category container_id : Str)
    (limit : Nat) : List Part :=
  (sortParts (parts.filter (rowMatches q category container_id))).take limit

/-- `n` is one of the first characters of `h`. -/
def isPref : (n h : Str) → Bool
  | [], _ => true
  | _ :: _, [] => false
  | a :: n, b :: h => a == b && isPref n h

/-- `n` occurs contiguously inside `h`. -/
def isSubstr (n : Str) : (h : Str) → Bool
  | [] => isPref n []
  | a :: t => isPref n (a :: t) || isSubstr n t

/-- The listing filter as the spec words it: the trimmed free-text query
    is a case-insensitive substring of description, notes, subcategory or
    package (a match if ANY of them contains it); category and container
    are exact matches after trimming; empty or whitespace-only filter
    values mean no filter. -/
def specRowMatches (q category container_id : Str) (p : Part) : Bool :=
  (pyStrip q == ([] : Str) ||
    (isSubstr (lcStr (pyStrip q)) (lcStr p.description) ||
     isSubstr (lcStr (pyStrip q)) (lcStr p.notes) ||
     isSubstr (lcStr (pyStrip q)) (lcStr p.subcategory) ||
     isSubstr (lcStr (pyStrip q)) (lcStr p.package))) &&
  (pyStrip category == ([] : Str) || p.category == pyStrip category) &&
  (pyStrip container_id == ([] : Str) || p.container_id == pyStrip container_id)

/-- The filtered listing as the spec words it: the parts matching all
    provided filters, ordered by updated_at descending with ties broken
    by descending id, capped at the limit. -/
def fetch_parts_spec (parts : List Part) (q category container_id : Str)
    (limit : Nat) : List Part :=
  (sortParts (parts.filter (specRowMatches q category container_id))).take limit

/-- The form fields of POST /parts; FastAPI has already parsed quantity as
    an integer (Form default 0), the rest arrive as strings. -/
structure AddPartForm where
  category : Str
  subcategory : Str
  description : Str
  package : Str
  container_id : Str
  quantity : Int
  notes : Str
  datasheet_url : Str
  pinout_url : Str
deriving DecidableEq

/-- AUTOINCREMENT: a fresh id strictly greater than every id in the table. -/
def nextId (parts : List Part) : Nat :=
  (parts.foldr (fun p m => max p.id m) 0) + 1

/-- app.add_part: strip category and description, run the three ensure
    side effects, then INSERT the new row with every text field stripped,
    quantity clamped to ≥ 0 and updated_at set to the current time. -/
def add_part (st : DBState) (f : AddPartForm) (now : Nat) : DBState :=
  let category := pyStrip f.category
  let description := pyStrip f.description
  let st1 := ensure_category st category
  let st2 := ensure_container st1 f.container_id
  let st3 := ensure_subcategory st2 f.subcategory
  { st3 with parts := st3.parts ++ [{
      id := nextId st3.parts,
      category := category,
      subcategory := pyStrip f.subcategory,
      description := description,
      package := pyStrip f.package,
      container_id := pyStrip f.container_id,
      quantity := max f.quantity 0,
      notes := pyStrip f.notes,
      datasheet_url := pyStrip f.datasheet_url,
      pinout_url := pyStrip f.pinout_url,
      updated_at := now }] }

/-- models.PartCreate: the pydantic validation boundary (length bounds,
    min_length 1 on category and description, 0 ≤ quantity ≤ 1000000). -/
def partCreateValid (f : AddPartForm) : Bool :=
  1 ≤ f.category.length && f.category.length ≤ 24 &&
  f.subcategory.length ≤ 64 &&
  1 ≤ f.description.length && f.description.length ≤ 200 &&
  f.package.length ≤ 32 &&
  f.container_id.length ≤ 32 &&
  0 ≤ f.quantity && f.quantity ≤ 1000000 &&
  f.notes.length ≤ 1000

/-- app.delete_part: DELETE FROM parts WHERE id = pid, then re-render. -/
def delete_part (st : DBState) (pid : Nat) : DBState :=
  { st with parts := st.parts.filter (fun p => p.id != pid) }

/-- app.edit_cell (GET): 400 when the field is not allow-listed, 404 when
    the part id is absent, 200 otherwise; the handler only reads. -/
def edit_cell (st : DBState) (pid : Nat) (field : Str) : Nat × DBState :=
  if field ∈ ALLOWED_EDIT_FIELDS then
    match st.parts.find? (fun p => p.id == pid) with
    | some _ => (200, st)
    | none => (404, st)
  else (400, st)

/-- save_cell's quantity normalization: int(value), 0 when the stripped
    value is empty or not parsable, clamped to ≥ 0. -/
def normalizeQuantity (v : Str) : Int := max ((pyInt v).getD 0) 0

/-- The dynamic UPDATE parts SET field = value of save_cell, one branch
    per allow-listed column; the quantity string written by save_cell is
    read back as an integer by SQLite's INTEGER affinity. -/
def setField (p : Part) (field v : Str) (now : Nat) : Part :=
  if field = str "category" then { p with category := v, updated_at := now }
  else if field = str "subcategory" then { p with subcategory := v, updated_at := now }
  else if field = str "description" then { p with description := v, updated_at := now }
  else if field = str "package" then { p with package := v, updated_at := now }
  else if field = str "container_id" then { p with container_id := v, updated_at := now }
  else if field = str "quantity" then { p with quantity := normalizeQuantity v, updated_at := now }
  else if field = str "notes" then { p with notes := v, updated_at := now }
  else if field = str "datasheet_url" then { p with datasheet_url := v, updated_at := now }
  else if field = str "pinout_url" then { p with pinout_url := v, updated_at := now }
  else p

/-- app.save_cell (POST edit): reject a non-allow-listed field with 400
    before any storage access; strip the value; for the lookup-backed
    fields run the ensure side effect BEFORE touching the part; UPDATE
    the row (a no-op when the id is absent); answer 404 when the
    subsequent SELECT finds no row, 200 otherwise. -/
def save_cell (st : DBState) (pid : Nat) (field value : Str) (now : Nat) :
    Nat × DBState :=
  if field ∈ ALLOWED_EDIT_FIELDS then
    let v := pyStrip value
    let st1 :=
      if field = str "container_id" then ensure_container st v
      else if field = str "category" then ensure_category st v
      else if field = str "subcategory" then ensure_subcategory st v
      else st
    let st2 : DBState := { st1 with
      parts := st1.parts.map (fun p => if p.id == pid then setField p field v now else p) }
    match st2.parts.find? (fun p => p.id == pid) with
    | some _ => (200, st2)
    | none => (404, st2)
  else (400, st)

/-- A printable label: either an asset label carrying the text encoded
    into its QR image, or a content label carrying free text. -/
inductive Label where
  | asset (code : Str) (qr : Str)
  | content (code : Str) (text : Str)
deriving DecidableEq

/-- app.BASE_URL. -/
def BASE_URL : Str := str "http://192.168.8.20:8001"

/-- The text handed to the QR encoder for an asset label of one container. -/
def qrPayload (c : Str) : Str := BASE_URL ++ str "/containers/" ++ c

/-- request.form.get with the or-empty fallback of print_labels. -/
def formGet (form : List (Str × Str)) (key : Str) : Str :=
  match form.find? (fun kv => kv.fst == key) with
  | some kv => kv.snd
  | none => []

/-- app.print_labels: 400 when no codes were submitted; otherwise, per
    submitted code in order, an asset label (mode asset or both) whose QR
    text is BASE_URL ++ /containers/ ++ code, and a content label (mode
    content or both) whose text is the stripped form field text_code. -/
def print_labels (mode : Str) (codes : List Str) (form : List (Str × Str)) :
    Except Nat (List Label) :=
  if codes = [] then Except.error 400
  else Except.ok (codes.flatMap (fun c =>
    (if mode = str "asset" ∨ mode = str "both"
     then [Label.asset c (qrPayload c)] else []) ++
    (if mode = str "content" ∨ mode = str "both"
     then [Label.content c (pyStrip (formGet form (str "text_" ++ c)))] else [])))

/-- Tables created by db.init_db: only `parts`. -/
def initDbTableNames : List Str := [str "parts"]

/-- Columns of the `parts` table as created by db.init_db. -/
def initDbPartsColumns : List Str :=
  [str "id", str "category", str "subcategory", str "description",
   str "package", str "container_id", str "quantity", str "notes",
   str "updated_at"]

/-- Column list of add_part's INSERT INTO parts statement. -/
def addPartInsertColumns : List Str :=
  [str "category", str "subcategory", str "description", str "package",
   str "container_id", str "quantity", str "notes",
   str "datasheet_url", str "pinout_url", str "updated_at"]

/-- Tables targeted by the INSERTs of db.ensure_container,
    db.ensure_category and db.ensure_subcategory. -/
def ensureTargetTables : List Str :=
  [str "containers", str "categories", str "subcategories"]

/-- The empty database: the state right after initialization. -/
def emptyDB : DBState :=
  { parts := [], containers := [], categories := [], subcategories := [] }

/-- A concrete part used as witness input. -/
def examplePart : Part :=
  { id := 7, category := str "Resistor", subcategory := [],
    description := str "ab", package := [], container_id := [], quantity := 3,
    notes := [], datasheet_url := [], pinout_url := [], updated_at := 0 }

/-- A one-part database used as witness input. -/
def exampleDB : DBState :=
  { parts := [examplePart], containers := [], categories := [],
    subcategories := [] }

/-- A creation form whose category is a single blank: it satisfies every
    PartCreate constraint yet trims to the empty string. -/
def blankCategoryForm : AddPartForm :=
  { category := [' '], subcategory := [], description := str "10k",
    package := [], container_id := [], quantity := 0, notes := [],
    datasheet_url := [], pinout_url := [] }

/-- A creation form with a negative quantity. -/
def negQuantityForm : AddPartForm :=
  { category := str "Resistor", subcategory := [], description := str "10k",
    package := [], container_id := [], quantity := -5, notes := [],
    datasheet_url := [], pinout_url := [] }

/-- A submitted label form carrying free text for container B12. -/
def exampleLabelForm : List (Str × Str) := [(str "text_B12", str " box ")]

/-- The row stored by add_part for negQuantityForm on exampleDB at time 1. -/
def negAddedPart : Part :=
  { id := 8, category := str "Resistor", subcategory := [],
    description := str "10k", package := [], container_id := [], quantity := 0,
    notes := [], datasheet_url := [], pinout_url := [], updated_at := 1 }

/-- The row stored by save_cell for field quantity and value abc on
    examplePart at time 1. -/
def abcSavedPart : Part :=
  { id := 7, category := str "Resistor", subcategory := [],
    description := str "ab", package := [], container_id := [], quantity := 0,
    notes := [], datasheet_url := [], pinout_url := [], updated_at := 1 }

/- ------------------------------------------------------------------ -/
/- Helper lemmas                                                      -/
/- ------------------------------------------------------------------ -/

theorem ensureBranch_parts (st : DBState) (v field : Str) :
    (if field = str "container_id" then ensure_container st v
     else if field = str "category" then ensure_category st v
     else if field = str "subcategory" then ensure_subcategory st v
     else st).parts = st.parts := by
  unfold ensure_container ensure_category ensure_subcategory
  split
  · rfl
  · split
    · rfl
    · split
      · rfl
      · rfl

theorem map_untouched (l : List Part) (pid : Nat) (g : Part → Part)
    (h : ∀ p ∈ l, p.id ≠ pid) :
    l.map (fun p => if p.id == pid then g p else p) = l := by
  induction l with
  | nil => rfl
  | cons a t ih =>
    have ha : (a.id == pid) = false := by
      simpa using h a (List.mem_cons_self a t)
    simp only [List.map_cons, ha, Bool.false_eq_true, if_false]
    rw [ih (fun p hp => h p (List.mem_cons_of_mem a hp))]

theorem find?_none_of_absent (l : List Part) (pid : Nat)
    (h : ∀ p ∈ l, p.id ≠ pid) :
    l.find? (fun p => p.id == pid) = none := by
  rw [List.find?_eq_none]
  intro p hp
  simpa using h p hp

theorem dropWhile_dropWhile (p : Char → Bool) (l : List Char) :
    (l.dropWhile p).dropWhile p = l.dropWhile p := by
  induction l with
  | nil => rfl
  | cons a t ih =>
    by_cases h : p a
    · simp [List.dropWhile_cons, h, ih]
    · simp [List.dropWhile_cons, h]

theorem dropWhile_length_le (p : Char → Bool) (l : List Char) :
    (l.dropWhile p).length ≤ l.length := by
  induction l with
  | nil => simp
  | cons a t ih =>
    by_cases h : p a
    · rw [List.dropWhile_cons, if_pos h]
      exact Nat.le_trans ih (Nat.le_succ _)
    · rw [List.dropWhile_cons, if_neg h]

theorem dropWhile_reverse_dropWhile (p : Char → Bool) (Y : List Char)
    (hY : Y.dropWhile p = Y) :
    ((Y.reverse.dropWhile p).reverse).dropWhile p =
      (Y.reverse.dropWhile p).reverse := by
  cases Y with
  | nil => simp
  | cons a t =>
    have ha : p a = false := by
      by_cases h : p a
      · exfalso
        rw [List.dropWhile_cons, if_pos h] at hY
        have hlen := congrArg List.length hY
        have hle := dropWhile_length_le p t
        simp at hlen
        omega
      · simpa using h
    rw [List.reverse_cons, List.dropWhile_append]
    by_cases he : (t.reverse.dropWhile p).isEmpty
    · rw [if_pos he]
      simp [List.dropWhile_cons, ha]
    · rw [if_neg he]
      rw [List.reverse_append]
      simp [List.dropWhile_cons, ha]

theorem pyStrip_idem (s : Str) : pyStrip (pyStrip s) = pyStrip s := by
  unfold pyStrip
  have hAA : ((s.dropWhile isSpaceChar).dropWhile isSpaceChar)
      = s.dropWhile isSpaceChar := dropWhile_dropWhile _ _
  have h1 := dropWhile_reverse_dropWhile isSpaceChar (s.dropWhile isSpaceChar) hAA
  rw [h1, List.reverse_reverse, dropWhile_dropWhile]

theorem mem_ensureName (t : List Str) (n : Str) (h : pyStrip n ≠ []) :
    pyStrip n ∈ ensureName t n := by
  simp only [ensureName]
  rw [if_neg h]
  by_cases hm : pyStrip n ∈ t
  · rw [if_pos hm]; exact hm
  · rw [if_neg hm]
    exact List.mem_append.mpr (Or.inr (List.mem_singleton.mpr rfl))

theorem ensureName_count (t : List Str) (n : Str)
    (hinv : t.count (pyStrip n) ≤ 1) :
    (pyStrip n ≠ [] → (ensureName (ensureName t n) n).count (pyStrip n) = 1) ∧
    (pyStrip n = [] → ensureName t n = t) := by
  constructor
  · intro hne
    by_cases hm : pyStrip n ∈ t
    · have h1 : ensureName t n = t := by
        simp only [ensureName]; rw [if_neg hne, if_pos hm]
      rw [h1, h1]
      have hpos : 0 < t.count (pyStrip n) := List.count_pos_iff.mpr hm
      omega
    · have h1 : ensureName t n = t ++ [pyStrip n] := by
        simp only [ensureName]; rw [if_neg hne, if_neg hm]
      have hm2 : pyStrip n ∈ t ++ [pyStrip n] :=
        List.mem_append.mpr (Or.inr (List.mem_singleton.mpr rfl))
      have h2 : ensureName (t ++ [pyStrip n]) n = t ++ [pyStrip n] := by
        simp only [ensureName]; rw [if_neg hne, if_pos hm2]
      rw [h1, h2, List.count_append]
      have h0 : t.count (pyStrip n) = 0 := List.count_eq_zero.mpr hm
      simp [h0]
  · intro he
    simp only [ensureName]; rw [if_pos he]

theorem add_part_parts (st : DBState) (f : AddPartForm) (now : Nat) :
    (add_part st f now).parts = st.parts ++
      [{ id := nextId st.parts, category := pyStrip f.category,
         subcategory := pyStrip f.subcategory,
         description := pyStrip f.description,
         package := pyStrip f.package,
         container_id := pyStrip f.container_id,
         quantity := max f.quantity 0, notes := pyStrip f.notes,
         datasheet_url := pyStrip f.datasheet_url,
         pinout_url := pyStrip f.pinout_url, updated_at := now }] := rfl

theorem setField_quantity (p : Part) (v : Str) (now : Nat) :
    setField p (str "quantity") v now =
      { p with quantity := normalizeQuantity v, updated_at := now } := by
  unfold setField
  rw [if_neg (by decide), if_neg (by decide), if_neg (by decide),
      if_neg (by decide), if_neg (by decide), if_pos rfl]

/- ------------------------------------------------------------------ -/
/- Claims                                                             -/
/- ------------------------------------------------------------------ -/

/-- Claim C1: the claim states that after database initialization the
    schema holds the four tables parts, containers, categories and
    subcategories, and that a Part row carries datasheet_url and
    pinout_url so that part creation can insert into those columns.
    Evidence of the code bug: db.init_db creates only the parts table,
    without datasheet_url and pinout_url, while add_part's INSERT names
    those two columns and the ensure functions target the three missing
    lookup tables. -/
theorem c1_initDb_schema_mismatch :
    str "containers" ∉ initDbTableNames ∧
    str "categories" ∉ initDbTableNames ∧
    str "subcategories" ∉ initDbTableNames ∧
    str "datasheet_url" ∉ initDbPartsColumns ∧
    str "pinout_url" ∉ initDbPartsColumns ∧
    str "datasheet_url" ∈ addPartInsertColumns ∧
    str "pinout_url" ∈ addPartInsertColumns ∧
    str "containers" ∈ ensureTargetTables ∧
    str "categories" ∈ ensureTargetTables ∧
    str "subcategories" ∈ ensureTargetTables := by decide

/-- Claim C3: an edit request (GET or POST) whose field is not in the
    allow-list is answered with HTTP 400 and leaves the whole stored
    state (parts table and lookup tables) unchanged. -/
theorem c3_unknown_field_rejected (st : DBState) (pid : Nat)
    (field value : Str) (now : Nat) (h : field ∉ ALLOWED_EDIT_FIELDS) :
    save_cell st pid field value now = (400, st) ∧
    edit_cell st pid field = (400, st) := by
  unfold save_cell edit_cell
  rw [if_neg h, if_neg h]
  exact ⟨rfl, rfl⟩

theorem c3_witness :
    save_cell exampleDB 7 (str "id") (str "x") 1 = (400, exampleDB) ∧
    edit_cell exampleDB 7 (str "id") = (400, exampleDB) :=
  c3_unknown_field_rejected exampleDB 7 (str "id") (str "x") 1 (by decide)

/-- Claim C4: for a part id absent from storage, an edit request (GET or
    POST) with an allow-listed field is answered 404, and a delete
    request is a no-op on the parts table; deletion is idempotent. -/
theorem c4_missing_part (st : DBState) (pid : Nat) (field value : Str)
    (now : Nat) (hid : ∀ p ∈ st.parts, p.id ≠ pid)
    (hf : field ∈ ALLOWED_EDIT_FIELDS) :
    (edit_cell st pid field).1 = 404 ∧
    (save_cell st pid field value now).1 = 404 ∧
    delete_part st pid = st ∧
    delete_part (delete_part st pid) pid = delete_part st pid := by
  refine ⟨?_, ?_, ?_, ?_⟩
  · unfold edit_cell
    rw [if_pos hf, find?_none_of_absent st.parts pid hid]
  · unfold save_cell
    rw [if_pos hf]
    have hp : (if field = str "container_id" then ensure_container st (pyStrip value)
        else if field = str "category" then ensure_category st (pyStrip value)
        else if field = str "subcategory" then ensure_subcategory st (pyStrip value)
        else st).parts = st.parts := ensureBranch_parts st (pyStrip value) field
    simp only [hp]
    rw [map_untouched st.parts pid _ hid, find?_none_of_absent st.parts pid hid]
  · unfold delete_part
    rw [List.filter_eq_self.mpr]
    intro p hp
    simpa using hid p hp
  · unfold delete_part
    simp [List.filter_filter]

theorem c4_witness :
    (edit_cell exampleDB 999 (str "category")).1 = 404 ∧
    (save_cell exampleDB 999 (str "category") (str "IC") 1).1 = 404 ∧
    delete_part exampleDB 999 = exampleDB ∧
    delete_part (delete_part exampleDB 999) 999 = delete_part exampleDB 999 :=
  c4_missing_part exampleDB 999 (str "category") (str "IC") 1 (by decide)
    (by decide)

/-- Claim C2: every write of a part's quantity stores a non-negative
    integer: creation clamps any integer input at 0, and an inline
    quantity edit parses the stripped string, treats empty or
    non-parsable input as 0, and clamps the result at 0. The two
    negative conjuncts state the clamping and the parse-failure default
    exactly. -/
theorem c2_quantity_nonneg (st : DBState) (f : AddPartForm) (pid now : Nat)
    (value : Str) :
    (∀ p ∈ (add_part st f now).parts, p ∉ st.parts → 0 ≤ p.quantity) ∧
    (f.quantity < 0 →
      ∀ p ∈ (add_part st f now).parts, p ∉ st.parts → p.quantity = 0) ∧
    (∀ p ∈ (save_cell st pid (str "quantity") value now).2.parts,
      p ∉ st.parts → 0 ≤ p.quantity) ∧
    (pyInt (pyStrip value) = none →
      ∀ p ∈ (save_cell st pid (str "quantity") value now).2.parts,
        p ∉ st.parts → p.quantity = 0) := by
  have hsave : (save_cell st pid (str "quantity") value now).2.parts =
      st.parts.map (fun p => if p.id == pid
        then { p with quantity := normalizeQuantity (pyStrip value),
                      updated_at := now }
        else p) := by
    simp only [save_cell]
    rw [if_pos (by decide : str "quantity" ∈ ALLOWED_EDIT_FIELDS),
        if_neg (by decide : ¬(str "quantity" = str "container_id")),
        if_neg (by decide : ¬(str "quantity" = str "category")),
        if_neg (by decide : ¬(str "quantity" = str "subcategory"))]
    simp only [setField_quantity]
    cases hfind : (st.parts.map (fun p => if p.id == pid
        then { p with quantity := normalizeQuantity (pyStrip value),
                      updated_at := now }
        else p)).find? (fun p => p.id == pid) <;> simp [hfind]
  refine ⟨?_, ?_, ?_, ?_⟩
  · intro p hp hnp
    rw [add_part_parts] at hp
    rcases List.mem_append.mp hp with h | h
    · exact absurd h hnp
    · rw [List.mem_singleton.mp h]
      exact le_max_right _ _
  · intro hq p hp hnp
    rw [add_part_parts] at hp
    rcases List.mem_append.mp hp with h | h
    · exact absurd h hnp
    · rw [List.mem_singleton.mp h]
      simp only
      omega
  · intro p hp hnp
    rw [hsave] at hp
    rcases List.mem_map.mp hp with ⟨a, ha, hpa⟩
    by_cases hid : (a.id == pid) = true
    · rw [if_pos hid] at hpa
      rw [← hpa]
      exact le_max_right _ _
    · rw [if_neg hid] at hpa
      exact absurd (hpa ▸ ha) hnp
  · intro hnone p hp hnp
    rw [hsave] at hp
    rcases List.mem_map.mp hp with ⟨a, ha, hpa⟩
    by_cases hid : (a.id == pid) = true
    · rw [if_pos hid] at hpa
      rw [← hpa]
      simp only [normalizeQuantity, hnone, Option.getD_none]
      rfl
    · rw [if_neg hid] at hpa
      exact absurd (hpa ▸ ha) hnp

theorem c2_witness :
    negAddedPart.quantity = 0 ∧ abcSavedPart.quantity = 0 :=
  ⟨(c2_quantity_nonneg exampleDB negQuantityForm 7 1 (str "abc")).2.1
      (by decide) negAddedPart (by decide) (by decide),
   (c2_quantity_nonneg exampleDB negQuantityForm 7 1 (str "abc")).2.2.2
      (by decide) abcSavedPart (by decide) (by decide)⟩

/-- Claim C5 counterexample: a creation form whose category is a single
    blank passes every PartCreate constraint (min_length counts the
    untrimmed string), yet the stored part's category is the empty
    string, so a reachable create request does store an empty category. -/
theorem c5_counterexample :
    partCreateValid blankCategoryForm = true ∧
    (add_part emptyDB blankCategoryForm 1).parts.map (fun p => p.category)
      = [[]] := by decide

/-- Claim C5 as amended: a created part stores exactly the trimmed
    category and description; these are empty precisely when the
    submitted value trims to the empty string — the input boundary
    (required form fields, and PartCreate's min_length 1 if applied)
    does not reject whitespace-only values. -/
theorem c5_amended (st : DBState) (f : AddPartForm) (now : Nat) :
    ∃ p : Part, (add_part st f now).parts = st.parts ++ [p] ∧
      p.category = pyStrip f.category ∧
      p.description = pyStrip f.description ∧
      (p.category = [] ↔ pyStrip f.category = []) ∧
      (p.description = [] ↔ pyStrip f.description = []) :=
  ⟨_, add_part_parts st f now, rfl, rfl, Iff.rfl, Iff.rfl⟩

/-- Claim C6: each ensure operation is idempotent — under the uniqueness
    invariant of the lookup tables, ensuring the same name twice leaves
    exactly one entry carrying that name, and ensuring an empty or
    whitespace-only value leaves the state unchanged. -/
theorem c6_ensure_idempotent (st : DBState) (n : Str)
    (h1 : st.containers.count (pyStrip n) ≤ 1)
    (h2 : st.categories.count (pyStrip n) ≤ 1)
    (h3 : st.subcategories.count (pyStrip n) ≤ 1) :
    (pyStrip n ≠ [] →
      (ensure_container (ensure_container st n) n).containers.count
          (pyStrip n) = 1 ∧
      (ensure_category (ensure_category st n) n).categories.count
          (pyStrip n) = 1 ∧
      (ensure_subcategory (ensure_subcategory st n) n).subcategories.count
          (pyStrip n) = 1) ∧
    (pyStrip n = [] →
      ensure_container st n = st ∧ ensure_category st n = st ∧
      ensure_subcategory st n = st) := by
  constructor
  · intro hne
    exact ⟨(ensureName_count st.containers n h1).1 hne,
           (ensureName_count st.categories n h2).1 hne,
           (ensureName_count st.subcategories n h3).1 hne⟩
  · intro he
    refine ⟨?_, ?_, ?_⟩
    · show ({ st with containers := ensureName st.containers n } : DBState) = st
      rw [(ensureName_count st.containers n h1).2 he]
    · show ({ st with categories := ensureName st.categories n } : DBState) = st
      rw [(ensureName_count st.categories n h2).2 he]
    · show ({ st with subcategories := ensureName st.subcategories n } : DBState) = st
      rw [(ensureName_count st.subcategories n h3).2 he]

theorem c6_witness :
    ((ensure_container (ensure_container exampleDB (str " B1 ")) (str " B1 ")).containers.count
        (pyStrip (str " B1 ")) = 1 ∧
     (ensure_category (ensure_category exampleDB (str " B1 ")) (str " B1 ")).categories.count
        (pyStrip (str " B1 ")) = 1 ∧
     (ensure_subcategory (ensure_subcategory exampleDB (str " B1 ")) (str " B1 ")).subcategories.count
        (pyStrip (str " B1 ")) = 1) ∧
    (ensure_container exampleDB (str "  ") = exampleDB ∧
     ensure_category exampleDB (str "  ") = exampleDB ∧
     ensure_subcategory exampleDB (str "  ") = exampleDB) :=
  ⟨(c6_ensure_idempotent exampleDB (str " B1 ") (by decide) (by decide)
      (by decide)).1 (by decide),
   (c6_ensure_idempotent exampleDB (str "  ") (by decide) (by decide)
      (by decide)).2 (by decide)⟩

/-- Claim C8: a label-print request with mode both and a non-empty code
    list yields, per submitted code, exactly one asset label whose QR
    text is the base URL followed by the container path and the code,
    and one content label whose text is the stripped per-container form
    field text_code (empty when absent); two labels per code in total. -/
theorem c8_both_mode (codes : List Str) (form : List (Str × Str))
    (h : codes ≠ []) :
    print_labels (str "both") codes form =
      Except.ok (codes.flatMap (fun c =>
        [Label.asset c (qrPayload c),
         Label.content c (pyStrip (formGet form (str "text_" ++ c)))])) ∧
    (codes.flatMap (fun c =>
        [Label.asset c (qrPayload c),
         Label.content c (pyStrip (formGet form (str "text_" ++ c)))])).length
      = 2 * codes.length := by
  constructor
  · unfold print_labels
    rw [if_neg h]
    exact rfl
  · clear h
    induction codes with
    | nil => rfl
    | cons c t ih =>
      simp only [List.flatMap_cons, List.length_append, List.length_cons,
        List.length_nil] at ih ⊢
      omega

theorem c8_witness :
    print_labels (str "both") [str "B12"] exampleLabelForm =
      Except.ok
        [Label.asset (str "B12") (str "http://192.168.8.20:8001/containers/B12"),
         Label.content (str "B12") (str "box")] :=
  ((c8_both_mode [str "B12"] exampleLabelForm (by decide)).1).trans (by rfl)

/-- Claim C9: an inline edit of a lookup-backed field on a nonexistent
    part id still runs the ensure side effect: the response is 404 and
    the parts table is unchanged, yet the submitted (trimmed, non-empty)
    value is present in the corresponding lookup table afterwards. -/
theorem c9_ensure_runs_before_404 (st : DBState) (pid : Nat) (value : Str)
    (now : Nat) (hid : ∀ p ∈ st.parts, p.id ≠ pid)
    (hv : pyStrip value ≠ []) :
    ((save_cell st pid (str "container_id") value now).1 = 404 ∧
     (save_cell st pid (str "container_id") value now).2.parts = st.parts ∧
     pyStrip value ∈ (save_cell st pid (str "container_id") value now).2.containers) ∧
    ((save_cell st pid (str "category") value now).1 = 404 ∧
     (save_cell st pid (str "category") value now).2.parts = st.parts ∧
     pyStrip value ∈ (save_cell st pid (str "category") value now).2.categories) ∧
    ((save_cell st pid (str "subcategory") value now).1 = 404 ∧
     (save_cell st pid (str "subcategory") value now).2.parts = st.parts ∧
     pyStrip value ∈ (save_cell st pid (str "subcategory") value now).2.subcategories) := by
  have hv2 : pyStrip (pyStrip value) ≠ [] := by rw [pyStrip_idem]; exact hv
  have hcont : save_cell st pid (str "container_id") value now =
      (404, ensure_container st (pyStrip value)) := by
    simp only [save_cell, if_true, ensure_container, ensure_category,
      ensure_subcategory]
    rw [map_untouched st.parts pid _ hid,
        find?_none_of_absent st.parts pid hid,
        if_pos (by decide : str "container_id" ∈ ALLOWED_EDIT_FIELDS)]
  have hcat : save_cell st pid (str "category") value now =
      (404, ensure_category st (pyStrip value)) := by
    have hf1 : (str "category" = str "container_id") = False :=
      eq_false (by decide)
    simp only [save_cell, hf1, if_false, if_true, ensure_container,
      ensure_category, ensure_subcategory]
    rw [map_untouched st.parts pid _ hid,
        find?_none_of_absent st.parts pid hid,
        if_pos (by decide : str "category" ∈ ALLOWED_EDIT_FIELDS)]
  have hsub : save_cell st pid (str "subcategory") value now =
      (404, ensure_subcategory st (pyStrip value)) := by
    have hf1 : (str "subcategory" = str "container_id") = False :=
      eq_false (by decide)
    have hf2 : (str "subcategory" = str "category") = False :=
      eq_false (by decide)
    simp only [save_cell, hf1, hf2, if_false, if_true, ensure_container,
      ensure_category, ensure_subcategory]
    rw [map_untouched st.parts pid _ hid,
        find?_none_of_absent st.parts pid hid,
        if_pos (by decide : str "subcategory" ∈ ALLOWED_EDIT_FIELDS)]
  refine ⟨⟨?_, ?_, ?_⟩, ⟨?_, ?_, ?_⟩, ⟨?_, ?_, ?_⟩⟩
  · rw [hcont]
  · rw [hcont]; rfl
  · rw [hcont]
    show pyStrip value ∈ ensureName st.containers (pyStrip value)
    have := mem_ensureName st.containers (pyStrip value) hv2
    rwa [pyStrip_idem] at this
  · rw [hcat]
  · rw [hcat]; rfl
  · rw [hcat]
    show pyStrip value ∈ ensureName st.categories (pyStrip value)
    have := mem_ensureName st.categories (pyStrip value) hv2
    rwa [pyStrip_idem] at this
  · rw [hsub]
  · rw [hsub]; rfl
  · rw [hsub]
    show pyStrip value ∈ ensureName st.subcategories (pyStrip value)
    have := mem_ensureName st.subcategories (pyStrip value) hv2
    rwa [pyStrip_idem] at this

theorem charOfNat_toNat (n : Nat) (h1 : 97 ≤ n) (h2 : n ≤ 122) :
    (Char.ofNat n).toNat = n := by
  have hv : n.isValidChar := Or.inl (by omega)
  simp only [Char.ofNat, hv, dif_pos, Char.ofNatAux, Char.toNat, UInt32.toNat,
    BitVec.toNat_ofNatLt]

theorem toLowerAscii_ne_wild (c : Char) (h1 : c ≠ '%') (h2 : c ≠ '_') :
    toLowerAscii c ≠ '%' ∧ toLowerAscii c ≠ '_' := by
  unfold toLowerAscii
  split
  · rename_i h
    constructor
    · intro heq
      have ht := congrArg Char.toNat heq
      rw [charOfNat_toNat (c.toNat + 32) (by omega) (by omega)] at ht
      have h37 : ('%' : Char).toNat = 37 := rfl
      rw [h37] at ht
      omega
    · intro heq
      have ht := congrArg Char.toNat heq
      rw [charOfNat_toNat (c.toNat + 32) (by omega) (by omega)] at ht
      have h95 : ('_' : Char).toNat = 95 := rfl
      rw [h95] at ht
      omega
  · exact ⟨h1, h2⟩

theorem mem_of_mem_dropWhile (a : Char) (p : Char → Bool) (l : List Char) :
    a ∈ l.dropWhile p → a ∈ l := by
  induction l with
  | nil => intro h; simp at h
  | cons b t ih =>
    intro h
    rw [List.dropWhile_cons] at h
    by_cases hb : p b
    · rw [if_pos hb] at h
      exact List.mem_cons_of_mem b (ih h)
    · rw [if_neg hb] at h
      exact h

theorem mem_of_mem_pyStrip (a : Char) (s : Str) (h : a ∈ pyStrip s) :
    a ∈ s := by
  unfold pyStrip at h
  rw [List.mem_reverse] at h
  have h2 := mem_of_mem_dropWhile a isSpaceChar _ h
  rw [List.mem_reverse] at h2
  exact mem_of_mem_dropWhile a isSpaceChar s h2

theorem noWild_lc (s : Str) (h : ∀ c ∈ s, c ≠ '%' ∧ c ≠ '_') :
    ∀ c ∈ lcStr s, c ≠ '%' ∧ c ≠ '_' := by
  intro c hc
  rcases List.mem_map.mp hc with ⟨b, hb, hbc⟩
  have hbw := h b hb
  rw [← hbc]
  exact toLowerAscii_ne_wild b hbw.1 hbw.2

theorem noWild_pyStrip (s : Str) (h : ∀ c ∈ s, c ≠ '%' ∧ c ≠ '_') :
    ∀ c ∈ pyStrip s, c ≠ '%' ∧ c ≠ '_' :=
  fun c hc => h c (mem_of_mem_pyStrip c s hc)

theorem tails_any_isEmpty (s : Str) :
    (s.tails.any fun t => t.isEmpty) = true := by
  induction s with
  | nil => rfl
  | cons a t ih => simp [List.tails_cons, ih]

theorem likeMatch_append_percent (n : Str)
    (hn : ∀ c ∈ n, c ≠ '%' ∧ c ≠ '_') :
    ∀ s, likeMatch (n ++ ['%']) s = isPref n s := by
  induction n with
  | nil =>
    intro s
    show likeMatch ['%'] s = isPref [] s
    have : likeMatch ['%'] s = (s.tails.any fun t => t.isEmpty) := rfl
    rw [this, tails_any_isEmpty]
    rfl
  | cons c m ih =>
    intro s
    have hc := hn c (List.mem_cons_self c m)
    have hm : ∀ a ∈ m, a ≠ '%' ∧ a ≠ '_' :=
      fun a ha => hn a (List.mem_cons_of_mem c ha)
    cases s with
    | nil =>
      show likeMatch (c :: (m ++ ['%'])) [] = isPref (c :: m) []
      rw [likeMatch]
      rw [if_neg hc.1]
      rfl
    | cons a t =>
      show likeMatch (c :: (m ++ ['%'])) (a :: t) = isPref (c :: m) (a :: t)
      rw [likeMatch]
      rw [if_neg hc.1]
      show (if c = '_' then likeMatch (m ++ ['%']) t
            else c == a && likeMatch (m ++ ['%']) t) = isPref (c :: m) (a :: t)
      rw [if_neg hc.2, ih hm t]
      rfl

theorem isSubstr_eq_any_tails (n s : Str) :
    isSubstr n s = (s.tails.any fun t => isPref n t) := by
  induction s with
  | nil => simp [isSubstr]
  | cons a t ih => simp [isSubstr, List.tails_cons, ih]

theorem likeMatch_eq_isSubstr (n : Str)
    (hn : ∀ c ∈ n, c ≠ '%' ∧ c ≠ '_') (s : Str) :
    likeMatch ('%' :: (n ++ ['%'])) s = isSubstr n s := by
  have h0 : likeMatch ('%' :: (n ++ ['%'])) s =
      (s.tails.any fun t => likeMatch (n ++ ['%']) t) := rfl
  rw [h0, isSubstr_eq_any_tails]
  exact congrArg s.tails.any (funext fun t => likeMatch_append_percent n hn t)

theorem lcStr_pattern (q : Str) :
    lcStr ('%' :: (q ++ ['%'])) = '%' :: (lcStr q ++ ['%']) := by
  simp only [lcStr, List.map_cons, List.map_append, List.map_nil]
  rfl

theorem sqlLike_eq_isSubstr (f q2 : Str)
    (hq : ∀ c ∈ q2, c ≠ '%' ∧ c ≠ '_') :
    sqlLike f ('%' :: (q2 ++ ['%'])) = isSubstr (lcStr q2) (lcStr f) := by
  unfold sqlLike
  rw [lcStr_pattern]
  exact likeMatch_eq_isSubstr (lcStr q2) (noWild_lc q2 hq) (lcStr f)

theorem rowMatches_eq_spec (q category container_id : Str) (p : Part)
    (hq : ∀ c ∈ q, c ≠ '%' ∧ c ≠ '_') :
    rowMatches q category container_id p =
      specRowMatches q category container_id p := by
  have h1 := noWild_pyStrip q hq
  simp only [rowMatches, specRowMatches]
  rw [sqlLike_eq_isSubstr p.description (pyStrip q) h1,
      sqlLike_eq_isSubstr p.notes (pyStrip q) h1,
      sqlLike_eq_isSubstr p.subcategory (pyStrip q) h1,
      sqlLike_eq_isSubstr p.package (pyStrip q) h1]

/-- Claim C7 counterexample: with one stored part whose description is
    ab and the free-text query a-percent-b, the code's listing returns
    the part (LIKE treats percent as a wildcard) although the query is
    not a substring of any of its fields, so the listing is not the
    substring-filtered listing the claim describes. -/
theorem c7_counterexample :
    fetch_parts [examplePart] (str "a%b") [] [] 500 = [examplePart] ∧
    fetch_parts_spec [examplePart] (str "a%b") [] [] 500 = [] := by decide

/-- Claim C7 as amended: for every free-text query containing none of
    the SQL LIKE wildcard characters percent and underscore, the listing
    equals the spec's filtered listing (case-insensitive substring over
    description, notes, subcategory, package; exact trimmed category and
    container match; empty filters mean no filter), it is sorted by
    updated_at descending with ties broken by descending id, and it is
    capped at the limit (500 for callers that pass no limit). -/
theorem c7_amended (parts : List Part) (q category container_id : Str)
    (limit : Nat) (hq : ∀ c ∈ q, c ≠ '%' ∧ c ≠ '_') :
    fetch_parts parts q category container_id limit =
      fetch_parts_spec parts q category container_id limit ∧
    (fetch_parts parts q category container_id limit).length ≤ limit ∧
    List.Sorted partBefore (fetch_parts parts q category container_id limit) ∧
    (fetch_parts parts q category container_id DEFAULT_LIMIT).length ≤ 500 := by
  refine ⟨?_, ?_, ?_, ?_⟩
  · unfold fetch_parts fetch_parts_spec
    congr 2
    apply List.filter_congr
    intro p hp
    exact rowMatches_eq_spec q category container_id p hq
  · exact List.length_take_le _ _
  · exact List.Pairwise.sublist (List.take_sublist _ _)
      (List.sorted_insertionSort partBefore _)
  · exact List.length_take_le _ _

theorem c7_witness :
    fetch_parts [examplePart] (str "AB") [] [] 500 =
      fetch_parts_spec [examplePart] (str "AB") [] [] 500 ∧
    (fetch_parts [examplePart] (str "AB") [] [] 500).length ≤ 500 ∧
    List.Sorted partBefore (fetch_parts [examplePart] (str "AB") [] [] 500) ∧
    (fetch_parts [examplePart] (str "AB") [] [] DEFAULT_LIMIT).length ≤ 500 :=
  c7_amended [examplePart] (str "AB") [] [] 500 (by decide)

/-- Claim C10: the listing is invariant under surrounding whitespace in
    the free-text query, because the LIKE pattern is built from the
    stripped query and stripping is idempotent. -/
theorem c10_query_strip_invariant (parts : List Part)
    (q category container_id : Str) (limit : Nat) :
    fetch_parts parts q category container_id limit =
      fetch_parts parts (pyStrip q) category container_id limit := by
  unfold fetch_parts
  congr 2
  apply List.filter_congr
  intro p hp
  simp only [rowMatches]
  rw [pyStrip_idem]

theorem c9_witness :
    ((save_cell exampleDB 999 (str "container_id") (str " B7 ") 1).1 = 404 ∧
     (save_cell exampleDB 999 (str "container_id") (str " B7 ") 1).2.parts
        = exampleDB.parts ∧
     pyStrip (str " B7 ") ∈
        (save_cell exampleDB 999 (str "container_id") (str " B7 ") 1).2.containers) ∧
    ((save_cell exampleDB 999 (str "category") (str " B7 ") 1).1 = 404 ∧
     (save_cell exampleDB 999 (str "category") (str " B7 ") 1).2.parts
        = exampleDB.parts ∧
     pyStrip (str " B7 ") ∈
        (save_cell exampleDB 999 (str "category") (str " B7 ") 1).2.categories) ∧
    ((save_cell exampleDB 999 (str "subcategory") (str " B7 ") 1).1 = 404 ∧
     (save_cell exampleDB 999 (str "subcategory") (str " B7 ") 1).2.parts
        = exampleDB.parts ∧
     pyStrip (str " B7 ") ∈
        (save_cell exampleDB 999 (str "subcategory") (str " B7 ") 1).2.subcategories) :=
  c9_ensure_runs_before_404 exampleDB 999 (str " B7 ") 1 (by decide) (by decide)

end Inventory
